import Mathlib

/-!
Verification of the go_vmware_api health-check probe (src/main.go) against its
natural-language specification.

Modelling conventions:
  - Go float64 values and arithmetic are modelled by exact rationals.  Every
    claim under examination is an algebraic identity (products, differences,
    divisions by constants) that the spec states exactly, so rationals are the
    faithful idealisation; rounding of out-of-range int64 inputs is not at
    issue in any claim.
  - Go fixed-width integers (int16, int32, int64, int) are modelled by Int.
    No claim involves overflow.
  - The process (main) is modelled as a pure function from the parsed
    configuration and an environment (the responses of the external vSphere
    management session) to an outcome describing the observable result:
    which message is reported and how the process exits.  The Bool component
    of the result records whether a network connection was attempted
    (govmomi.NewClient reached).
  - fmt output lines that are purely diagnostic echoes are not part of any
    claim and are not modelled; the final summary line, the error reports and
    the exit codes are.
-/

/-! ## Data model (src/main.go lines 23-31) -/

/-- Mirror of the Go struct statistics: total and free are float64 fields,
modelled as rationals. -/
structure statistics where
  total : ℚ
  free : ℚ
deriving DecidableEq

/-- Mirror of the Go struct resource: a name plus an embedded statistics. -/
structure resource where
  name : String
  stats : statistics
deriving DecidableEq

/-- Go field promotion: r.total stands for the embedded statistics field. -/
def resource.total (r : resource) : ℚ := r.stats.total

/-- Go field promotion: r.free stands for the embedded statistics field. -/
def resource.free (r : resource) : ℚ := r.stats.free

/-- The zero value of resource, as produced by the Go expression
e := &resource\x7b\x7d (src/main.go line 114). -/
def emptyResource : resource := { name := "", stats := { total := 0, free := 0 } }

/-! ## vSphere managed-object records (the fields src/main.go reads) -/

/-- The hardware summary fields read from a HostSystem
(host.Summary.Hardware.*): CpuMhz is int32, NumCpuCores int16,
MemorySize int64 in govmomi. -/
structure HostHardwareSummary where
  CpuMhz : Int
  NumCpuCores : Int
  MemorySize : Int
deriving DecidableEq

/-- The quick-stats fields read from a HostSystem
(host.Summary.QuickStats.*): both int32 in govmomi; OverallMemoryUsage is
in MB, OverallCpuUsage in MHz. -/
structure HostQuickStats where
  OverallCpuUsage : Int
  OverallMemoryUsage : Int
deriving DecidableEq

/-- The summary of a HostSystem, as read by cpuStats and memStats. -/
structure HostSummary where
  Hardware : HostHardwareSummary
  QuickStats : HostQuickStats
deriving DecidableEq

/-- A HostSystem managed object with the fields retrieved at
src/main.go line 135 ("name", "summary"). -/
structure HostSystem where
  Name : String
  Summary : HostSummary
deriving DecidableEq

/-- The summary of a Datastore, as read by datastoreStats: Summary.Name,
Summary.Capacity (bytes, int64), Summary.FreeSpace (bytes, int64). -/
structure DatastoreSummary where
  Name : String
  Capacity : Int
  FreeSpace : Int
deriving DecidableEq

/-- A Datastore managed object with the fields retrieved at
src/main.go line 117 ("name", "summary"). -/
structure Datastore where
  Name : String
  Summary : DatastoreSummary
deriving DecidableEq

/-! ## Reporter formatting (src/main.go lines 33-36 and 151-152) -/

/-- Two-digit zero-padded rendering of a value below 100. -/
def pad2 (n : Nat) : String :=
  if n < 10 then "0" ++ toString n else toString n

/-- Rendering of a rational with exactly two decimal places, the counterpart
of the Go format verb used on the percentage.  The value is scaled by 100 and
rounded half-up to an integer, then printed as integer part, a dot, and two
digits. -/
def formatF2 (q : ℚ) : String :=
  let n : ℤ := ⌊q * 100 + 1 / 2⌋
  if n < 0 then
    "-" ++ toString ((-n).toNat / 100) ++ "." ++ pad2 ((-n).toNat % 100)
  else
    toString (n.toNat / 100) ++ "." ++ pad2 (n.toNat % 100)

/-- Mirror of the Go method freePer (src/main.go lines 33-36): it formats
free / total * 100 with two decimals and performs no zero check.  When
total = 0 the Go float64 division produces an IEEE-754 infinity (free > 0 or
free < 0) or NaN (free = 0), and the format verb prints it verbatim; the
first branch encodes exactly those three outputs. -/
def resource.freePer (r : resource) : String :=
  if r.total = 0 then
    if r.free > 0 then "+Inf" else if r.free < 0 then "-Inf" else "NaN"
  else
    formatF2 (r.free / r.total * 100)

/-! ## Metric calculators (src/main.go lines 156-184) -/

/-- Mirror of datastoreStats: name from Summary.Name, total from
Summary.Capacity, free from Summary.FreeSpace (float64 conversions of the
int64 byte counts). -/
def datastoreStats (ds : Datastore) : resource :=
  { name := ds.Summary.Name,
    stats := { total := (ds.Summary.Capacity : ℚ),
               free := (ds.Summary.FreeSpace : ℚ) } }

/-- Mirror of cpuStats: total is CpuMhz times NumCpuCores, free is that same
product minus OverallCpuUsage; the name is the top-level host Name. -/
def cpuStats (host : HostSystem) : resource :=
  { name := host.Name,
    stats := { total := (host.Summary.Hardware.CpuMhz : ℚ) * (host.Summary.Hardware.NumCpuCores : ℚ),
               free := (host.Summary.Hardware.CpuMhz : ℚ) * (host.Summary.Hardware.NumCpuCores : ℚ)
                       - (host.Summary.QuickStats.OverallCpuUsage : ℚ) } }

/-- Mirror of memStats: total is MemorySize divided by 1024 twice (bytes to
MB), free is that quotient minus OverallMemoryUsage (already in MB); the name
is the top-level host Name. -/
def memStats (host : HostSystem) : resource :=
  { name := host.Name,
    stats := { total := (host.Summary.Hardware.MemorySize : ℚ) / 1024 / 1024,
               free := (host.Summary.Hardware.MemorySize : ℚ) / 1024 / 1024
                       - (host.Summary.QuickStats.OverallMemoryUsage : ℚ) } }

/-! ## Endpoint normalizer (src/main.go lines 56-63) -/

/-- Whether pat occurs as a contiguous run anywhere in the list. -/
def hasSubstrAux (pat : List Char) : List Char → Bool
  | [] => pat.isEmpty
  | c :: rest => pat.isPrefixOf (c :: rest) || hasSubstrAux pat rest

/-- The regular-expression test performed by urlCheck.  The Go pattern is
anchored as caret dot-star colon slash slash dot-star dollar, and the Go dot
does not match a newline, so the whole string must decompose as a newline-free
run, the three characters colon slash slash, and a newline-free run: the
string matches exactly when it has the three-character separator somewhere and
no newline anywhere.  MatchString on this constant pattern cannot return an
error, so the ignored error component never fires. -/
def regexMatch (h : String) : Bool :=
  hasSubstrAux [':', '/', '/'] h.data && !(h.data.contains '\n')

/-- Mirror of urlCheck (src/main.go lines 56-63): return h unchanged when the
pattern matches, otherwise wrap it. -/
def urlCheck (h : String) : String :=
  if regexMatch h then h else "https://" ++ h ++ "/sdk"

/-- Whether pat occurs as a contiguous run with at least one element left
after it. -/
def specMatchAux (pat : List Char) : List Char → Bool
  | [] => false
  | c :: rest => (pat.isPrefixOf (c :: rest) && decide (pat.length < rest.length + 1)) || specMatchAux pat rest

/-- Modelled from the spec: the pattern the specification asserts for the
Endpoint Normalizer, anchored with dot-plus on both sides of colon slash
slash, so a nonempty newline-free run is required strictly before and
strictly after the separator.  This definition exists solely to compare the
specified pattern with regexMatch, the one the code uses. -/
def specPattern (h : String) : Bool :=
  (match h.data with
   | [] => false
   | _ :: rest => specMatchAux [':', '/', '/'] rest) && !(h.data.contains '\n')

/-! ## Option resolver (src/main.go lines 38-46 and 186-203) -/

/-- The parsed flag set, one field per pflag variable registered in init,
in registration order: hostname, username, password, command, datastore,
warning, critical. -/
structure Config where
  hostname : String
  username : String
  password : String
  command : String
  datastore : String
  warning : Int
  critical : Int
deriving DecidableEq

/-- Mirror of checkRequiredOptions (src/main.go lines 186-203): a Go switch
whose cases are tested top to bottom, returning the error message of the
first case that fires, or nothing when none fires.  The threshold checks
compare against zero, so an explicit zero is rejected exactly like an
unsupplied value (the flag default is nonzero). -/
def checkRequiredOptions (cfg : Config) : Option String :=
  if cfg.hostname = "" then some "Hostname is required"
  else if cfg.warning = 0 then some "Must supply the warning percentage"
  else if cfg.critical = 0 then some "Must supply the critical percentage"
  else if cfg.username = "" then some "Must supply the username"
  else if cfg.password = "" then some "Must supply the password"
  else if cfg.command = "" then some "Must supply the command"
  else none

/-- The command-to-object-kind map of src/main.go line 72, modelled as an
association list in the literal order of the Go map literal.  Go map
iteration order is unspecified, so statements about the printed key list are
made up to permutation. -/
def commandChoices : List (String × String) :=
  [("MEM", "HostSystem"), ("CPU", "HostSystem"), ("VMFS", "Datastore")]

/-- Mirror of getKeys (src/main.go lines 48-54): collect the keys of the
map. -/
def getKeys (k : List (String × String))  : List String :=
  k.map Prod.fst

/-! ## The main pipeline (src/main.go lines 65-154) -/

/-- The responses of the external management session: whether the client
connection fails (govmomi.NewClient, line 96), whether the container view
creation fails (line 103), whether the Retrieve call fails (lines 117 and
135), and the object sequences the Retrieve call returns. -/
structure Env where
  connectErr : Bool
  createViewErr : Bool
  retrieveErr : Bool
  hosts : List HostSystem
  datastores : List Datastore
deriving DecidableEq

/-- The observable result of a run of main: which report is produced and how
the process exits.  usageError covers the log.Fatal after
checkRequiredOptions fails; invalidCommand carries the key list printed
before os.Exit 2; missingDatastore is the os.Exit 2 for VMFS without a
storage name; connectionError, viewError and retrieveError are the
log.Fatal calls on the session; datastoreNotFound carries the name in the
report printed before os.Exit 1; summaryLine is the normal final report of
name, total, free and formatted percentage. -/
inductive Outcome where
  | usageError (msg : String)
  | invalidCommand (choices : List String)
  | missingDatastore (command : String)
  | connectionError
  | viewError
  | retrieveError
  | datastoreNotFound (name : String)
  | summaryLine (name : String) (total free : ℚ) (pct : String)
deriving DecidableEq

/-- The process exit code of each outcome: log.Fatal exits with 1, the two
explicit os.Exit 2 calls with 2, the datastore-not-found os.Exit with 1, and
a normal run returning from main with 0. -/
def exitCodeOf : Outcome → Nat
  | Outcome.usageError _ => 1
  | Outcome.invalidCommand _ => 2
  | Outcome.missingDatastore _ => 2
  | Outcome.connectionError => 1
  | Outcome.viewError => 1
  | Outcome.retrieveError => 1
  | Outcome.datastoreNotFound _ => 1
  | Outcome.summaryLine _ _ _ _ => 0

/-- The CPU and MEM branch of the selection loop (src/main.go lines 140-148):
fold over the retrieved hosts, replacing the accumulator with the stats of
the current host on every iteration, starting from the zero resource of
line 114.  The inner switch is the Go switch on command. -/
def selectHosts (command : String) (hss : List HostSystem) : resource :=
  hss.foldl
    (fun e host =>
      if command = "CPU" then cpuStats host
      else if command = "MEM" then memStats host
      else e)
    emptyResource

/-- The VMFS branch of the selection loop (src/main.go lines 122-128): walk
the retrieved datastores and stop at the first whose top-level Name equals
the configured datastore name, taking its stats; if none matches, the zero
resource of line 114 survives. -/
def selectDatastore (target : String) (dss : List Datastore) : resource :=
  match dss.find? (fun host => target == host.Name) with
  | some host => datastoreStats host
  | none => emptyResource

/-- The whole of main after flag parsing (src/main.go lines 67-153), as a
function of the configuration and the session environment.  The Bool
component records whether a network connection was attempted: it is false
exactly on the paths that terminate before the govmomi.NewClient call of
line 96.  The VMFS not-found test mirrors line 129: it checks whether the
name of the selected resource is empty, not whether the loop matched. -/
def runMain (cfg : Config) (env : Env) : Outcome × Bool :=
  match checkRequiredOptions cfg with
  | some msg => (Outcome.usageError msg, false)
  | none =>
    if (List.lookup cfg.command commandChoices).isNone then
      (Outcome.invalidCommand (getKeys commandChoices), false)
    else if cfg.command = "VMFS" ∧ cfg.datastore = "" then
      (Outcome.missingDatastore cfg.command, false)
    else if env.connectErr then (Outcome.connectionError, true)
    else if env.createViewErr then (Outcome.viewError, true)
    else if cfg.command = "VMFS" then
      if env.retrieveErr then (Outcome.retrieveError, true)
      else
        let e := selectDatastore cfg.datastore env.datastores
        if e.name = "" then (Outcome.datastoreNotFound cfg.datastore, true)
        else (Outcome.summaryLine e.name e.total e.free e.freePer, true)
    else
      if env.retrieveErr then (Outcome.retrieveError, true)
      else
        let e := selectHosts cfg.command env.hosts
        (Outcome.summaryLine e.name e.total e.free e.freePer, true)

/-! ## Claims -/

/-- Claim C1: for every host, the CPU metric computes total as clockMHz times
coreCount and free as total minus currentUsageMHz; the MEM metric computes
total as memoryBytes over 1024*1024 and free as total minus currentUsageMB;
for every datastore, the VMFS metric takes total from capacityBytes and free
from freeSpaceBytes; each carries the object name; and the concrete example
clockMHz 2000, coreCount 4, usage 3000 gives total 8000 and free 5000. -/
theorem C1_metric_calculator :
    (∀ host : HostSystem,
      (cpuStats host).name = host.Name ∧
      (cpuStats host).total = (host.Summary.Hardware.CpuMhz : ℚ) * (host.Summary.Hardware.NumCpuCores : ℚ) ∧
      (cpuStats host).free = (cpuStats host).total - (host.Summary.QuickStats.OverallCpuUsage : ℚ)) ∧
    (∀ host : HostSystem,
      (memStats host).name = host.Name ∧
      (memStats host).total = (host.Summary.Hardware.MemorySize : ℚ) / (1024 * 1024) ∧
      (memStats host).free = (memStats host).total - (host.Summary.QuickStats.OverallMemoryUsage : ℚ)) ∧
    (∀ ds : Datastore,
      (datastoreStats ds).name = ds.Summary.Name ∧
      (datastoreStats ds).total = (ds.Summary.Capacity : ℚ) ∧
      (datastoreStats ds).free = (ds.Summary.FreeSpace : ℚ)) ∧
    cpuStats ⟨"esx1", ⟨⟨2000, 4, 0⟩, ⟨3000, 0⟩⟩⟩ =
      { name := "esx1", stats := { total := 8000, free := 5000 } } := by
  refine ⟨fun host => ⟨rfl, rfl, rfl⟩, fun host => ⟨rfl, ?_, rfl⟩, fun ds => ⟨rfl, rfl, rfl⟩, ?_⟩
  · show (host.Summary.Hardware.MemorySize : ℚ) / 1024 / 1024 =
      (host.Summary.Hardware.MemorySize : ℚ) / (1024 * 1024)
    rw [div_div]
  · norm_num [cpuStats, resource.mk.injEq, statistics.mk.injEq]

/-- Claim C2: for CPU and MEM the selector keeps only the resource of the
last host processed: on any sequence with last element h the result is the
metric of h, and on the empty sequence the zero-valued resource (name empty,
total 0, free 0) survives and main still reports it without crashing. -/
theorem C2_object_selector :
    (∀ (hss : List HostSystem) (h : HostSystem),
      selectHosts "CPU" (hss ++ [h]) = cpuStats h ∧
      selectHosts "MEM" (hss ++ [h]) = memStats h) ∧
    selectHosts "CPU" [] = emptyResource ∧
    selectHosts "MEM" [] = emptyResource ∧
    emptyResource = { name := "", stats := { total := 0, free := 0 } } ∧
    (∀ (hosts : List HostSystem) (dss : List Datastore),
      runMain ⟨"esx1", "root", "pw", "CPU", "", 85, 90⟩ ⟨false, false, false, hosts, dss⟩ =
        (Outcome.summaryLine (selectHosts "CPU" hosts).name (selectHosts "CPU" hosts).total
          (selectHosts "CPU" hosts).free (selectHosts "CPU" hosts).freePer, true)) ∧
    (∀ (hosts : List HostSystem) (dss : List Datastore),
      runMain ⟨"esx1", "root", "pw", "MEM", "", 85, 90⟩ ⟨false, false, false, hosts, dss⟩ =
        (Outcome.summaryLine (selectHosts "MEM" hosts).name (selectHosts "MEM" hosts).total
          (selectHosts "MEM" hosts).free (selectHosts "MEM" hosts).freePer, true)) := by
  refine ⟨?_, rfl, rfl, rfl, fun hosts dss => rfl, fun hosts dss => rfl⟩
  intro hss h
  constructor <;> simp [selectHosts, List.foldl_append]

/-- Claim C3 counterexample: the string made of the bare separator matches
the code pattern (dot-star on both sides) and is returned unchanged by
urlCheck, yet it does not match the pattern the claim states (dot-plus on
both sides), under which it would have to be wrapped. -/
theorem C3_counterexample :
    urlCheck "://" = "://" ∧ specPattern "://" = false := by
  constructor <;> rfl

/-- Claim C3 as amended: for every input h, urlCheck returns h unchanged
exactly when h matches the pattern the code actually uses (dot-star colon
slash slash dot-star, anchored), and every result is either h itself or the
wrapped form https prefix plus h plus sdk suffix; the function is total. -/
theorem C3_endpoint_normalizer (h : String) :
    (urlCheck h = h ↔ regexMatch h = true) ∧
    (urlCheck h = h ∨ urlCheck h = "https://" ++ h ++ "/sdk") := by
  have hne : "https://" ++ h ++ "/sdk" ≠ h := by
    intro heq
    have hlen := congrArg String.length heq
    rw [String.length_append, String.length_append] at hlen
    have h8 : ("https://" : String).length = 8 := rfl
    have h4 : ("/sdk" : String).length = 4 := rfl
    omega
  unfold urlCheck
  cases hm : regexMatch h
  · simp [hm, hne]
  · simp [hm]

/-- Claim C4: required-option validation reports the first missing field in
the fixed order hostname, warning threshold, critical threshold, username,
password, command; a threshold of exactly 0 is rejected like an unsupplied
one; when every field in that order is satisfied there is no error. -/
theorem C4_required_options :
    (∀ cfg : Config, cfg.hostname = "" →
      checkRequiredOptions cfg = some "Hostname is required") ∧
    (∀ cfg : Config, cfg.hostname ≠ "" → cfg.warning = 0 →
      checkRequiredOptions cfg = some "Must supply the warning percentage") ∧
    (∀ cfg : Config, cfg.hostname ≠ "" → cfg.warning ≠ 0 → cfg.critical = 0 →
      checkRequiredOptions cfg = some "Must supply the critical percentage") ∧
    (∀ cfg : Config, cfg.hostname ≠ "" → cfg.warning ≠ 0 → cfg.critical ≠ 0 →
      cfg.username = "" →
      checkRequiredOptions cfg = some "Must supply the username") ∧
    (∀ cfg : Config, cfg.hostname ≠ "" → cfg.warning ≠ 0 → cfg.critical ≠ 0 →
      cfg.username ≠ "" → cfg.password = "" →
      checkRequiredOptions cfg = some "Must supply the password") ∧
    (∀ cfg : Config, cfg.hostname ≠ "" → cfg.warning ≠ 0 → cfg.critical ≠ 0 →
      cfg.username ≠ "" → cfg.password ≠ "" → cfg.command = "" →
      checkRequiredOptions cfg = some "Must supply the command") ∧
    (∀ cfg : Config, cfg.hostname ≠ "" → cfg.warning ≠ 0 → cfg.critical ≠ 0 →
      cfg.username ≠ "" → cfg.password ≠ "" → cfg.command ≠ "" →
      checkRequiredOptions cfg = none) := by
  refine ⟨?_, ?_, ?_, ?_, ?_, ?_, ?_⟩ <;>
    intro cfg <;> intros <;> simp_all [checkRequiredOptions]

/-- Claim C4 witness: a zero warning threshold is rejected with the warning
message even though every other field is present, and a fully populated
configuration passes. -/
theorem C4_required_options_witness :
    checkRequiredOptions ⟨"esx1", "root", "pw", "CPU", "", 0, 90⟩ =
      some "Must supply the warning percentage" ∧
    checkRequiredOptions ⟨"esx1", "root", "pw", "CPU", "", 85, 90⟩ = none := by
  constructor
  · exact C4_required_options.2.1 ⟨"esx1", "root", "pw", "CPU", "", 0, 90⟩ (by decide) rfl
  · exact C4_required_options.2.2.2.2.2.2 ⟨"esx1", "root", "pw", "CPU", "", 85, 90⟩
      (by decide) (by decide) (by decide) (by decide) (by decide) (by decide)

/-- Helper: the first name match in a datastore sequence is the one the
selection takes, regardless of what follows it. -/
lemma selectDatastore_first_match (target : String) (pre post : List Datastore)
    (d : Datastore) (hpre : ∀ d' ∈ pre, d'.Name ≠ target) (hd : d.Name = target) :
    selectDatastore target (pre ++ d :: post) = datastoreStats d := by
  unfold selectDatastore
  induction pre with
  | nil =>
    simp [List.find?_cons, hd.symm]
  | cons a as ih =>
    have ha : (target == a.Name) = false := by
      simp [hpre a (List.mem_cons_self a as)]
      exact fun he => absurd he.symm (hpre a (List.mem_cons_self a as))
    simp only [List.cons_append, List.find?_cons, ha]
    exact ih (fun d' hmem => hpre d' (List.mem_cons_of_mem a hmem))

/-- Helper: when no datastore name equals the target, the selection returns
the zero resource. -/
lemma selectDatastore_no_match (target : String) (dss : List Datastore)
    (hnone : ∀ d ∈ dss, d.Name ≠ target) :
    selectDatastore target dss = emptyResource := by
  unfold selectDatastore
  have : dss.find? (fun host => target == host.Name) = none := by
    rw [List.find?_eq_none]
    intro d hmem
    simp
    exact fun he => absurd he.symm (hnone d hmem)
  rw [this]

/-- Claim C5: for the VMFS command the datastore sequence is scanned for an
exact name match against the configured target, stopping at the first
matching element; when no element matches, main reports the named datastore
as not found and the process exits with code 1. -/
theorem C5_vmfs_not_found (target : String) (hosts : List HostSystem)
    (dss : List Datastore) (ht : target ≠ "")
    (hnone : ∀ d ∈ dss, d.Name ≠ target) :
    runMain ⟨"esx1", "root", "pw", "VMFS", target, 85, 90⟩ ⟨false, false, false, hosts, dss⟩ =
      (Outcome.datastoreNotFound target, true) ∧
    exitCodeOf (Outcome.datastoreNotFound target) = 1 ∧
    (∀ (pre post : List Datastore) (d : Datastore),
      (∀ d' ∈ pre, d'.Name ≠ target) → d.Name = target →
      selectDatastore target (pre ++ d :: post) = datastoreStats d) := by
  refine ⟨?_, rfl, fun pre post d hpre hd => selectDatastore_first_match target pre post d hpre hd⟩
  have hsel := selectDatastore_no_match target dss hnone
  unfold runMain
  simp [checkRequiredOptions, commandChoices, List.lookup, ht, hsel, emptyResource]

/-- Claim C5 witness: with target ds9 absent from a one-element datastore
sequence, main ends in the not-found report with exit code 1. -/
theorem C5_vmfs_not_found_witness :
    runMain ⟨"esx1", "root", "pw", "VMFS", "ds9", 85, 90⟩
      ⟨false, false, false, [], [⟨"ds1", ⟨"ds1", 100, 40⟩⟩]⟩ =
      (Outcome.datastoreNotFound "ds9", true) := by
  refine (C5_vmfs_not_found "ds9" [] [⟨"ds1", ⟨"ds1", 100, 40⟩⟩] (by decide) ?_).1
  intro d hmem
  rw [List.mem_singleton] at hmem
  subst hmem
  decide

/-- Claim C6: for every command outside the recognized set, after required
validation passes, main reports the valid choices and exits with code 2; the
printed key list of the choice map is exactly CPU, MEM, VMFS up to the order
of Go map iteration. -/
theorem C6_invalid_command (cfg : Config) (env : Env)
    (hval : checkRequiredOptions cfg = none)
    (h1 : cfg.command ≠ "CPU") (h2 : cfg.command ≠ "MEM") (h3 : cfg.command ≠ "VMFS") :
    runMain cfg env = (Outcome.invalidCommand (getKeys commandChoices), false) ∧
    exitCodeOf (Outcome.invalidCommand (getKeys commandChoices)) = 2 ∧
    List.Perm (getKeys commandChoices) ["CPU", "MEM", "VMFS"] := by
  refine ⟨?_, rfl, by decide⟩
  have b1 : (cfg.command == "CPU") = false := by simp [h1]
  have b2 : (cfg.command == "MEM") = false := by simp [h2]
  have b3 : (cfg.command == "VMFS") = false := by simp [h3]
  unfold runMain
  rw [hval]
  simp [commandChoices, List.lookup, b1, b2, b3]

/-- Claim C6 witness: the command FOO is rejected with the choice list and no
network attempt. -/
theorem C6_invalid_command_witness :
    runMain ⟨"esx1", "root", "pw", "FOO", "", 85, 90⟩ ⟨false, false, false, [], []⟩ =
      (Outcome.invalidCommand (getKeys commandChoices), false) :=
  (C6_invalid_command ⟨"esx1", "root", "pw", "FOO", "", 85, 90⟩ ⟨false, false, false, [], []⟩
    rfl (by decide) (by decide) (by decide)).1

/-- Claim C7: VMFS with an empty datastore name exits with code 2 before any
network call; the second component false states that the client connection
of line 96 is never attempted, whatever the session would have answered. -/
theorem C7_vmfs_empty_datastore (cfg : Config) (env : Env)
    (hval : checkRequiredOptions cfg = none)
    (hcmd : cfg.command = "VMFS") (hds : cfg.datastore = "") :
    runMain cfg env = (Outcome.missingDatastore cfg.command, false) ∧
    exitCodeOf (Outcome.missingDatastore cfg.command) = 2 := by
  refine ⟨?_, rfl⟩
  unfold runMain
  rw [hval]
  simp [commandChoices, List.lookup, hcmd, hds]

/-- Claim C7 witness: even in an environment whose connection would fail, the
missing-name exit happens first and no connection is attempted. -/
theorem C7_vmfs_empty_datastore_witness :
    runMain ⟨"esx1", "root", "pw", "VMFS", "", 85, 90⟩ ⟨true, true, true, [], []⟩ =
      (Outcome.missingDatastore "VMFS", false) :=
  (C7_vmfs_empty_datastore ⟨"esx1", "root", "pw", "VMFS", "", 85, 90⟩ ⟨true, true, true, [], []⟩
    rfl rfl rfl).1

/-- Claim C8 counterexample: the division-by-zero condition is not handled.
With total 0 the Go float64 quotient is an IEEE-754 infinity or NaN and the
format verb prints it straight into the output: positive free yields +Inf
and zero free yields NaN in the reported percentage field. -/
theorem C8_counterexample :
    resource.freePer ⟨"host", ⟨0, 250⟩⟩ = "+Inf" ∧
    resource.freePer ⟨"host", ⟨0, 0⟩⟩ = "NaN" := by
  constructor <;> rfl

/-- Claim C8 as amended: whenever total is nonzero the Reporter computes
free over total times 100 formatted to exactly two decimal places, and the
concrete case total 1000, free 250 prints 25.00; when total is zero the
division is not handled and the IEEE non-finite value reaches the output
(see the counterexample). -/
theorem C8_reporter (name : String) (total free : ℚ) (h : total ≠ 0) :
    resource.freePer ⟨name, ⟨total, free⟩⟩ = formatF2 (free / total * 100) ∧
    resource.freePer ⟨"ds2", ⟨1000, 250⟩⟩ = "25.00" := by
  constructor
  · unfold resource.freePer resource.total resource.free
    simp [h]
  · unfold resource.freePer resource.total resource.free
    norm_num
    unfold formatF2
    norm_num
    rfl

/-- Claim C8 witness: the amended theorem applied at total 1000, free 250. -/
theorem C8_reporter_witness :
    resource.freePer ⟨"ds2", ⟨1000, 250⟩⟩ = "25.00" :=
  (C8_reporter "ds2" 1000 250 (by norm_num)).2

/-- Claim C9: the warning and critical thresholds are never compared against
the computed percentage: two runs that differ only in their nonzero warning
and critical values produce the same outcome in every environment, hence the
same percentage, the same summary line and the same exit code. -/
theorem C9_thresholds_unused (hostname username password command datastore : String)
    (w c w2 c2 : Int) (env : Env)
    (hw : w ≠ 0) (hc : c ≠ 0) (hw2 : w2 ≠ 0) (hc2 : c2 ≠ 0) :
    runMain ⟨hostname, username, password, command, datastore, w, c⟩ env =
      runMain ⟨hostname, username, password, command, datastore, w2, c2⟩ env := by
  have hEq : checkRequiredOptions ⟨hostname, username, password, command, datastore, w, c⟩ =
      checkRequiredOptions ⟨hostname, username, password, command, datastore, w2, c2⟩ := by
    unfold checkRequiredOptions
    simp [hw, hc, hw2, hc2]
  unfold runMain
  rw [hEq]

/-- Claim C9 witness: thresholds 85, 90 against 70, 80 give identical runs. -/
theorem C9_thresholds_unused_witness :
    runMain ⟨"esx1", "root", "pw", "CPU", "", 85, 90⟩ ⟨false, false, false, [], []⟩ =
      runMain ⟨"esx1", "root", "pw", "CPU", "", 70, 80⟩ ⟨false, false, false, [], []⟩ :=
  C9_thresholds_unused "esx1" "root" "pw" "CPU" "" 85 90 70 80
    ⟨false, false, false, [], []⟩ (by decide) (by decide) (by decide) (by decide)

/-- Claim C10: the VMFS match is tested against the top-level Name of each
datastore, but the reported resource name is taken from Summary.Name, and
the not-found test checks the reported name against the empty string: when
the first matching datastore has an empty Summary.Name, main exits 1 as not
found despite the successful match, and otherwise the summary line carries
Summary.Name of the matched element rather than its matched Name. -/
theorem C10_vmfs_name_mismatch (target : String) (hosts : List HostSystem)
    (pre post : List Datastore) (d : Datastore) (ht : target ≠ "")
    (hpre : ∀ d' ∈ pre, d'.Name ≠ target) (hd : d.Name = target) :
    (d.Summary.Name = "" →
      runMain ⟨"esx1", "root", "pw", "VMFS", target, 85, 90⟩
        ⟨false, false, false, hosts, pre ++ d :: post⟩ =
        (Outcome.datastoreNotFound target, true) ∧
      exitCodeOf (Outcome.datastoreNotFound target) = 1) ∧
    (d.Summary.Name ≠ "" →
      runMain ⟨"esx1", "root", "pw", "VMFS", target, 85, 90⟩
        ⟨false, false, false, hosts, pre ++ d :: post⟩ =
        (Outcome.summaryLine d.Summary.Name (d.Summary.Capacity : ℚ) (d.Summary.FreeSpace : ℚ)
          (datastoreStats d).freePer, true)) := by
  have hsel := selectDatastore_first_match target pre post d hpre hd
  constructor
  · intro hempty
    refine ⟨?_, rfl⟩
    unfold runMain
    simp [checkRequiredOptions, commandChoices, List.lookup, ht, hsel, datastoreStats, hempty]
  · intro hne
    unfold runMain
    simp [checkRequiredOptions, commandChoices, List.lookup, ht, hsel, datastoreStats, hne,
      resource.total, resource.free]

/-- Claim C10 witness: a single datastore whose Name matches the target but
whose Summary.Name is empty makes main exit 1 as not found. -/
theorem C10_vmfs_name_mismatch_witness :
    runMain ⟨"esx1", "root", "pw", "VMFS", "ds1", 85, 90⟩
      ⟨false, false, false, [], [⟨"ds1", ⟨"", 100, 40⟩⟩]⟩ =
      (Outcome.datastoreNotFound "ds1", true) := by
  have hmain := C10_vmfs_name_mismatch "ds1" [] [] [] ⟨"ds1", ⟨"", 100, 40⟩⟩
    (by decide) (by simp) rfl
  exact (hmain.1 rfl).1
